import Mathlib

/-!
Verification of the Papadiamantis expert-evaluation client
(`assets/app.js`, version 0.2.0).

The JavaScript source is shallowly embedded: the untyped task / answer /
session objects become Lean structures whose optional fields are `Option`s,
JS truthiness tests (`!x`) become explicit predicates on those options,
object-property maps become association lists, and the stateful
procedures (`submit`, the navigation click handlers, the timing
accumulator) become pure state-transition functions with the ambient
clock, the fresh submission id, the DOM form presence and the transport
outcome passed in as explicit parameters.
-/

namespace Papadiamantis

/-- JS truthiness of an optional string value: `undefined`/`null` and the
empty string are falsy. -/
def truthyStr : Option String → Bool
  | none => false
  | some s => decide (s ≠ "")

/-- JS truthiness of an optional numeric value: `undefined`/`null` and `0`
are falsy. -/
def truthyInt : Option Int → Bool
  | none => false
  | some n => decide (n ≠ 0)

/-- JS `String.prototype.trim`: strip leading and trailing whitespace. -/
def jsTrim (s : String) : String :=
  String.mk (((s.toList.dropWhile Char.isWhitespace).reverse.dropWhile
    Char.isWhitespace).reverse)

/-- Association-list lookup, the embedding of JS object property access
`obj[key]` (property keys are unique in a JS object). -/
def lookupA {α : Type} : List (String × α) → String → Option α
  | [], _ => none
  | (k, v) :: rest, key => if k = key then some v else lookupA rest key

/-- Association-list update, the embedding of JS `obj[key] = v`
(updates in place, or appends a new property). -/
def setA {α : Type} : List (String × α) → String → α → List (String × α)
  | [], key, v => [(key, v)]
  | (k, w) :: rest, key, v =>
    if k = key then (k, v) :: rest else (k, w) :: setA rest key v

/-- `clamp(n, lo, hi) = Math.max(lo, Math.min(hi, n))` from `app.js`. -/
def clamp (n lo hi : Int) : Int := max lo (min hi n)

/-- An item of a cluster task. -/
structure Item where
  doc_id : String
  title : Option String := none
  excerpt : Option String := none
deriving Repr, DecidableEq

/-- A document reference of a pair task. -/
structure DocRef where
  doc_id : String := ""
  title : Option String := none
deriving Repr, DecidableEq

/-- A task object of an assignment.  The JS object is untyped and
discriminated by the `type` string, so every variant field is present
and optional. -/
structure Task where
  type : String
  task_uid : Option String := none
  task_id : Option String := none
  clustering_id : String := ""
  cluster_id : String := ""
  batch_index : Option Int := none
  items : List Item := []
  doc1 : DocRef := {}
  doc2 : DocRef := {}
  same_cluster : Option Bool := none
deriving Repr, DecidableEq

/-- Per-item part of a cluster answer. -/
structure ItemAnswer where
  coherence : Option Int := none
  misplaced : Bool := false
  note : String := ""
deriving Repr, DecidableEq

/-- An answer object.  Cluster answers use `items`, `cluster_label`,
`cluster_note`; pair answers use `relatedness`, `common_theme`, `note`.
As in the untyped source, one structure carries all fields. -/
structure Answer where
  items : List (String × ItemAnswer) := []
  cluster_label : String := ""
  cluster_note : String := ""
  relatedness : Option Int := none
  common_theme : String := ""
  note : String := ""
deriving Repr, DecidableEq

/-- Result record of `validateTask`. -/
structure VResult where
  ok : Bool
  msg : String
deriving Repr, DecidableEq

def msgClusterMissing : String := "Απαντήστε στο cluster."
def msgClusterRate : String := "Βάλτε βαθμό (1–5) για όλα τα έργα."
def msgPairRate : String := "Βάλτε βαθμό συγγένειας (1–5)."
def msgPairTheme : String := "Γράψτε κοινό θεματικό στοιχείο (για ≥4)."
def msgIncomplete : String := "Υπάρχουν ελλιπείς απαντήσεις. Επιστρέψτε για έλεγχο."
def msgNetError : String := "Σφάλμα δικτύου. Δοκιμάστε ξανά."
def msgFormMissing : String := "Internal error: Netlify form not found in page HTML."

/-- The `for(const it of task.items)` loop of the cluster branch of
`validateTask`: every item needs a truthy `coherence` in the answer. -/
def checkItems (ans : Answer) : List Item → VResult
  | [] => ⟨true, ""⟩
  | it :: rest =>
    match lookupA ans.items it.doc_id with
    | none => ⟨false, msgClusterRate⟩
    | some a =>
      if truthyInt a.coherence then checkItems ans rest
      else ⟨false, msgClusterRate⟩

/-- `validateTask(task, answer)` from `app.js`.  `answer` is `none` when
`state.answers` has no entry for the task (JS `undefined`). -/
def validateTask (task : Task) (answer : Option Answer) : VResult :=
  if task.type = "cluster" then
    match answer with
    | none => ⟨false, msgClusterMissing⟩
    | some ans => checkItems ans task.items
  else if task.type = "pair" then
    match answer with
    | none => ⟨false, msgPairRate⟩
    | some ans =>
      if ¬ truthyInt ans.relatedness then ⟨false, msgPairRate⟩
      else if 4 ≤ ans.relatedness.getD 0 ∧ jsTrim ans.common_theme = "" then
        ⟨false, msgPairTheme⟩
      else ⟨true, ""⟩
  else ⟨true, ""⟩

/-- The persisted `Session` record (`defaultState()` shape).  The
underscore-prefixed JS fields `_lastTaskKey` and `_lastTaskEnterAt` are
named `lastTaskKey` and `lastTaskEnterAt`. -/
structure Session where
  started : Bool := false
  taskIndex : Int := 0
  answers : List (String × Answer) := []
  startedAt : Option String := none
  finishedAt : Option String := none
  clientSessionId : Option String := none
  submitted : Bool := false
  lastSubmissionUuid : Option String := none
  taskTimeMs : List (String × Int) := []
  lastTaskKey : Option String := none
  lastTaskEnterAt : Option Int := none
deriving Repr, DecidableEq

/-- `defaultState()` from `app.js`. -/
def defaultState : Session := {}

/-- `loadState(key)` from `app.js`: a missing or empty stored value yields
`null`; otherwise `JSON.parse` is attempted and an exception is swallowed
to `null`.  `JSON.parse` is platform code, abstracted here as the `parse`
parameter, which returns `none` exactly when parsing throws. -/
def loadState (parse : String → Option Session)
    (storage : List (String × String)) (key : String) : Option Session :=
  match lookupA storage key with
  | none => none
  | some raw => if raw = "" then none else parse raw

/-- `state = loadState(stateKey) || defaultState()` from `init()`. -/
def initialState (parse : String → Option Session)
    (storage : List (String × String)) (key : String) : Session :=
  (loadState parse storage key).getD defaultState

/-- The four screens toggled by `showScreen`. -/
inductive Screen where
  | welcome
  | task
  | submitScreen
  | thanks
deriving Repr, DecidableEq

/-- The screen chosen by the resume logic of `init()` from the persisted
session fields and the loaded assignment's task count. -/
def initScreen (st : Session) (taskCount : Nat) : Screen :=
  if st.submitted then Screen.thanks
  else if st.started then
    if (taskCount : Int) ≤ st.taskIndex then Screen.submitScreen
    else Screen.task
  else Screen.welcome

/-- `getAnswerKey(task) = task.task_uid || task.task_id`. -/
def getAnswerKey (t : Task) : Option String :=
  if truthyStr t.task_uid then t.task_uid else t.task_id

/-- `state.answers[getAnswerKey(task)]`; a missing key (JS `undefined`
subscript) yields `undefined`. -/
def lookupAnswer (st : Session) (t : Task) : Option Answer :=
  match getAnswerKey t with
  | some k => lookupA st.answers k
  | none => none

/-- The `btnBack` click handler:
`state.taskIndex = clamp(state.taskIndex - 1, 0, assignment.tasks.length)`,
never gated. -/
def backOp (st : Session) (taskCount : Nat) : Session :=
  { st with taskIndex := clamp (st.taskIndex - 1) 0 (taskCount : Int) }

/-- The `btnNext` click handler: validate the current task; on failure
alert the message and leave the state alone, on success
`state.taskIndex = clamp(state.taskIndex + 1, 0, assignment.tasks.length)`.
The returned `Option String` is the alerted message.  The handler only
fires on the task screen, where `taskIndex` indexes into `tasks`. -/
def nextOp (tasks : List Task) (st : Session) : Session × Option String :=
  match tasks[st.taskIndex.toNat]? with
  | some task =>
    let v := validateTask task (lookupAnswer st task)
    if v.ok then
      ({ st with taskIndex := clamp (st.taskIndex + 1) 0 (tasks.length : Int) },
        none)
    else (st, some v.msg)
  | none => (st, none)

/-- `updateTimingOnTaskSwitch(nextTaskKey)` with the clock reading passed
explicitly.  The JS guard `if(prevKey && prevEnter)` is the truthiness of
both fields. -/
def updateTimingOnTaskSwitch (st : Session) (nextTaskKey : Option String)
    (now : Int) : Session :=
  let base :=
    match st.lastTaskKey, st.lastTaskEnterAt with
    | some pk, some pe =>
      if pk ≠ "" ∧ pe ≠ 0 then
        let ms := (lookupA st.taskTimeMs pk).getD 0 + max 0 (now - pe)
        { st with taskTimeMs := setA st.taskTimeMs pk ms }
      else st
    | _, _ => st
  { base with lastTaskKey := nextTaskKey, lastTaskEnterAt := some now }

/-- `(m.lookup k) || 0`: accumulated milliseconds for a task key. -/
def getMs (m : List (String × Int)) (k : String) : Int := (lookupA m k).getD 0

/-- `t.batch_index ?? 0`, the sort key of the cluster-batch sort. -/
def bIdx (t : Task) : Int := t.batch_index.getD 0

instance decRelBIdx : DecidableRel (fun a b : Task => bIdx a ≤ bIdx b) :=
  fun a b => Int.decLe (bIdx a) (bIdx b)

/-- `same.slice().sort((a,b) => (a.batch_index ?? 0) - (b.batch_index ?? 0))`.
ECMAScript `Array.prototype.sort` is required to be stable, which insertion
sort with a non-strict comparison realises. -/
def sortByBatch (l : List Task) : List Task :=
  l.insertionSort (fun a b => bIdx a ≤ bIdx b)

/-- The `{k, K}` record returned by `computeClusterBatchInfo`. -/
structure BatchInfo where
  k : Option Nat
  K : Nat
deriving Repr, DecidableEq

/-- The filter of `computeClusterBatchInfo`: cluster tasks of the
assignment sharing the given task's `(clustering_id, cluster_id)`. -/
def sameGroup (task : Task) (tasks : List Task) : List Task :=
  tasks.filter (fun t =>
    decide (t.type = "cluster" ∧ t.clustering_id = task.clustering_id ∧
      t.cluster_id = task.cluster_id))

/-- `computeClusterBatchInfo(task)` from `app.js`, with the assignment's
task list passed explicitly. -/
def computeClusterBatchInfo (tasks : List Task) (task : Task) :
    Option BatchInfo :=
  if task.type ≠ "cluster" then none
  else
    let same := sameGroup task tasks
    if same.length ≤ 1 then none
    else
      let sorted := sortByBatch same
      match sorted.findIdx? (fun t =>
          decide (getAnswerKey t = getAnswerKey task)) with
      | some idx => some ⟨some (idx + 1), sorted.length⟩
      | none => some ⟨none, sorted.length⟩

/-- Outcome of the `fetch` POST inside `submit()`: success (`r.ok`),
a non-success HTTP status with response text, or a thrown network error. -/
inductive TransportResult where
  | success
  | httpError (status : Nat) (body : String)
  | networkError
deriving Repr, DecidableEq

/-- The status line written on a non-success HTTP response:
`` `Σφάλμα υποβολής (${r.status}). ${txt ? txt.slice(0,120) : ""}` ``. -/
def mkHttpErrorMsg (status : Nat) (body : String) : String :=
  "Σφάλμα υποβολής (" ++ toString status ++ "). " ++
    (if body = "" then "" else body.take 120)

/-- Observable outcome of one `submit()` invocation: the session state
afterwards, the screen shown (if `showScreen` ran), whether `btnSubmit`
ends up enabled, the final text of `submitStatus` (`none` if untouched),
and whether a network transmission was performed. -/
structure SubmitOutcome where
  state : Session
  screen : Option Screen
  submitEnabled : Bool
  statusMsg : Option String
  sent : Bool
deriving Repr, DecidableEq

/-- The `for(const t of assignment.tasks)` validation loop of `submit()`. -/
def allTasksValid (tasks : List Task) (st : Session) : Bool :=
  tasks.all (fun t => (validateTask t (lookupAnswer st t)).ok)

/-- `submit()` from `app.js` as a state transition.  The fresh submission
id, the `nowISO()` reading, the presence of the Netlify form in the DOM
and the transport outcome are explicit parameters; `enabled0` is the
enabled state of `btnSubmit` on entry. -/
def submit (st : Session) (tasks : List Task) (uuid nowIso : String)
    (formPresent : Bool) (transport : TransportResult) (enabled0 : Bool) :
    SubmitOutcome :=
  if st.submitted then
    { state := st, screen := some Screen.thanks, submitEnabled := enabled0,
      statusMsg := none, sent := false }
  else if ¬ allTasksValid tasks st then
    { state := st, screen := none, submitEnabled := true,
      statusMsg := some msgIncomplete, sent := false }
  else
    let st1 := { st with finishedAt := some nowIso,
                         lastSubmissionUuid := some uuid }
    if ¬ formPresent then
      { state := st1, screen := none, submitEnabled := true,
        statusMsg := some msgFormMissing, sent := false }
    else
      match transport with
      | TransportResult.success =>
        { state := { st1 with submitted := true },
          screen := some Screen.thanks, submitEnabled := false,
          statusMsg := some "", sent := true }
      | TransportResult.httpError status body =>
        { state := st1, screen := none, submitEnabled := true,
          statusMsg := some (mkHttpErrorMsg status body), sent := true }
      | TransportResult.networkError =>
        { state := st1, screen := none, submitEnabled := true,
          statusMsg := some msgNetError, sent := true }

/-! ### Helper lemmas -/

lemma truthyInt_eq_true_iff (o : Option Int) :
    truthyInt o = true ↔ o ≠ none ∧ o ≠ some 0 := by
  cases o with
  | none => simp [truthyInt]
  | some n => simp [truthyInt]

lemma lookupA_setA_self {α : Type} (m : List (String × α)) (k : String) (v : α) :
    lookupA (setA m k v) k = some v := by
  induction m with
  | nil => simp [setA, lookupA]
  | cons p rest ih =>
    obtain ⟨k1, v1⟩ := p
    by_cases hk : k1 = k
    · simp [setA, hk, lookupA]
    · simp [setA, hk, lookupA, ih]

lemma lookupA_setA_ne {α : Type} (m : List (String × α)) (k k2 : String) (v : α)
    (h : k2 ≠ k) : lookupA (setA m k v) k2 = lookupA m k2 := by
  induction m with
  | nil => simp [setA, lookupA, Ne.symm h]
  | cons p rest ih =>
    obtain ⟨k1, v1⟩ := p
    by_cases hk : k1 = k
    · subst hk
      simp [setA, lookupA, Ne.symm h]
    · simp [setA, hk, lookupA, ih]

lemma getMs_setA_self (m : List (String × Int)) (k : String) (v : Int) :
    getMs (setA m k v) k = v := by
  simp [getMs, lookupA_setA_self]

lemma getMs_setA_ne (m : List (String × Int)) (k k2 : String) (v : Int)
    (h : k2 ≠ k) : getMs (setA m k v) k2 = getMs m k2 := by
  simp [getMs, lookupA_setA_ne m k k2 v h]

lemma mkHttpErrorMsg_ne_empty (status : Nat) (body : String) :
    mkHttpErrorMsg status body ≠ "" := by
  intro h
  have hlen : (mkHttpErrorMsg status body).length
      = ("Σφάλμα υποβολής (").length + (toString status).length
        + ("). ").length + (if body = "" then "" else body.take 120).length := by
    rw [mkHttpErrorMsg, String.length_append, String.length_append,
      String.length_append]
  rw [h] at hlen
  have h17 : ("Σφάλμα υποβολής (").length = 17 := by decide
  have h0 : ("" : String).length = 0 := by decide
  rw [h17, h0] at hlen
  omega

/-! ### C1 — submitting an already-submitted session is a no-op -/

/-- C1: for a session already marked `submitted`, `submit()` performs no
network transmission, re-displays the thanks screen, and returns with the
whole session state — in particular `answers`, `startedAt`, `finishedAt`,
`lastSubmissionUuid` and `taskTimeMs` — unchanged. -/
theorem submit_noop_when_submitted (st : Session) (tasks : List Task)
    (uuid nowIso : String) (formPresent : Bool) (transport : TransportResult)
    (enabled0 : Bool) (h : st.submitted = true) :
    submit st tasks uuid nowIso formPresent transport enabled0 =
      { state := st, screen := some Screen.thanks, submitEnabled := enabled0,
        statusMsg := none, sent := false } := by
  simp [submit, h]

/-- A concrete already-submitted session, used to witness C1. -/
def stAlreadySubmitted : Session :=
  { submitted := true, answers := [("k", { relatedness := some 3 })],
    startedAt := some "2025-12-31", taskTimeMs := [("k", 1234)] }

/-- Witness for C1 at a concrete already-submitted session. -/
theorem submit_noop_when_submitted_witness :
    submit stAlreadySubmitted [] "subX" "2026-01-01" true
        TransportResult.success true =
      { state := stAlreadySubmitted, screen := some Screen.thanks,
        submitEnabled := true, statusMsg := none, sent := false } :=
  submit_noop_when_submitted _ _ _ _ _ _ _ rfl

/-! ### C5 — screen reconstruction on load -/

/-- C5: on every load the screen is reconstructed purely from the
persisted session fields: `submitted` short-circuits to the thanks screen,
otherwise `started` selects the submit screen when
`taskIndex >= taskCount` and the task screen when not, and otherwise the
welcome screen is shown. -/
theorem initScreen_reconstruction (st : Session) (n : Nat) :
    (st.submitted = true → initScreen st n = Screen.thanks)
    ∧ (st.submitted = false → st.started = true →
        (((n : Int) ≤ st.taskIndex → initScreen st n = Screen.submitScreen)
          ∧ (st.taskIndex < (n : Int) → initScreen st n = Screen.task)))
    ∧ (st.submitted = false → st.started = false →
        initScreen st n = Screen.welcome) := by
  refine ⟨fun h => by simp [initScreen, h], fun h1 h2 => ⟨fun h3 => ?_, fun h3 => ?_⟩,
    fun h1 h2 => by simp [initScreen, h1, h2]⟩
  · simp [initScreen, h1, h2, h3]
  · simp [initScreen, h1, h2, not_le.mpr h3]

/-- A submitted mid-task session, a finished unsubmitted session and an
in-progress session, used to witness C5. -/
def stDoneW : Session := { submitted := true, started := true, taskIndex := 1 }
def stFinishedW : Session := { started := true, taskIndex := 3 }
def stMidW : Session := { started := true, taskIndex := 2 }

/-- Witness for C5 on four concrete persisted sessions. -/
theorem initScreen_reconstruction_witness :
    initScreen stDoneW 3 = Screen.thanks
    ∧ initScreen stFinishedW 3 = Screen.submitScreen
    ∧ initScreen stMidW 3 = Screen.task
    ∧ initScreen {} 3 = Screen.welcome :=
  ⟨(initScreen_reconstruction stDoneW 3).1 rfl,
   ((initScreen_reconstruction stFinishedW 3).2.1 rfl rfl).1 (by decide),
   ((initScreen_reconstruction stMidW 3).2.1 rfl rfl).2 (by decide),
   (initScreen_reconstruction {} 3).2.2 rfl rfl⟩

/-! ### C9 — storage corruption treated as absence -/

/-- C9: when the stored value is absent, or present but not parseable,
`loadState` returns `null` and session initialization falls back to
`defaultState()`; a malformed persisted record never fails the session. -/
theorem loadState_corruption_fallback (parse : String → Option Session)
    (storage : List (String × String)) (key : String)
    (h : lookupA storage key = none
      ∨ ∃ raw, lookupA storage key = some raw ∧ parse raw = none) :
    loadState parse storage key = none
    ∧ initialState parse storage key = defaultState := by
  have hnone : loadState parse storage key = none := by
    rcases h with h | ⟨raw, h1, h2⟩
    · simp [loadState, h]
    · simp [loadState, h1, h2]
  exact ⟨hnone, by simp [initialState, hnone]⟩

/-- A parse function representing `JSON.parse` throwing on every input,
used to witness the corruption fallback. -/
def parseAlwaysFails : String → Option Session := fun _ => none

/-- Witness for C9: a present but malformed stored record falls back to
the default session. -/
theorem loadState_corruption_fallback_witness :
    loadState parseAlwaysFails [("pap", "garbage")] "pap" = none
    ∧ initialState parseAlwaysFails [("pap", "garbage")] "pap"
        = defaultState :=
  loadState_corruption_fallback parseAlwaysFails [("pap", "garbage")] "pap"
    (Or.inr ⟨"garbage", rfl, rfl⟩)

/-! ### C10 — tasks of unknown type always validate -/

/-- C10: a task whose `type` is neither `"cluster"` nor `"pair"` validates
with `ok=true` for every answer, including an absent one; hence it never
blocks forward navigation (next always advances, with no alert) nor the
per-task check of the final submission loop. -/
theorem validateTask_unknown_type (t : Task) (a : Option Answer)
    (h1 : t.type ≠ "cluster") (h2 : t.type ≠ "pair") :
    validateTask t a = ⟨true, ""⟩
    ∧ (∀ st : Session, (validateTask t (lookupAnswer st t)).ok = true)
    ∧ (∀ (tasks : List Task) (st : Session),
        tasks[st.taskIndex.toNat]? = some t →
        (nextOp tasks st).1.taskIndex
            = clamp (st.taskIndex + 1) 0 (tasks.length : Int)
          ∧ (nextOp tasks st).2 = none) := by
  have base : ∀ a2 : Option Answer, validateTask t a2 = ⟨true, ""⟩ :=
    fun a2 => by simp [validateTask, h1, h2]
  refine ⟨base a, fun st => by rw [base], fun tasks st hget => ?_⟩
  simp [nextOp, hget, base]

/-- Witness for C10 at a concrete unknown-type task. -/
theorem validateTask_unknown_type_witness :
    validateTask { type := "mystery" } none = ⟨true, ""⟩
    ∧ (nextOp [{ type := "mystery" }] {}).1.taskIndex = 1 := by
  have h := validateTask_unknown_type { type := "mystery" } none
    (by decide) (by decide)
  refine ⟨h.1, ?_⟩
  have h2 := (h.2.2 [{ type := "mystery" }] {} rfl).1
  rw [h2]
  decide

/-! ### C2 — pair-task validation -/

/-- C2 counterexample: the pair branch of `validateTask` performs no range
check on `relatedness`.  The out-of-range value 6 (not a rating in 1..5)
together with a non-blank theme is accepted with `ok=true`, where the
claim demands `ok=false`. -/
theorem validateTask_pair_range_unchecked :
    validateTask { type := "pair" }
        (some { relatedness := some 6, common_theme := "x" }) = ⟨true, ""⟩
    ∧ ¬ ((1 : Int) ≤ 6 ∧ (6 : Int) ≤ 5) := by
  decide

/-- C2 (amended): for every pair task, `validateTask` fails with the
rating message when the answer is absent or `relatedness` is JS-falsy
(null or 0 — membership in 1..5 is not checked), additionally fails with
the common-theme message when the truthy `relatedness` is `>= 4` and
`common_theme` trims to empty, and succeeds in every other case. -/
theorem validateTask_pair_spec (t : Task) (h : t.type = "pair")
    (a : Option Answer) :
    ((validateTask t a).ok = true ↔
      ∃ ans, a = some ans ∧ ans.relatedness ≠ none ∧ ans.relatedness ≠ some 0
        ∧ (4 ≤ ans.relatedness.getD 0 → jsTrim ans.common_theme ≠ ""))
    ∧ (a = none → validateTask t a = ⟨false, msgPairRate⟩)
    ∧ (∀ ans, a = some ans → truthyInt ans.relatedness = false →
        validateTask t a = ⟨false, msgPairRate⟩)
    ∧ (∀ ans, a = some ans → truthyInt ans.relatedness = true →
        4 ≤ ans.relatedness.getD 0 → jsTrim ans.common_theme = "" →
        validateTask t a = ⟨false, msgPairTheme⟩) := by
  have hc : ¬ (t.type = "cluster") := by rw [h]; decide
  refine ⟨?_, ?_, ?_, ?_⟩
  · cases a with
    | none => simp [validateTask, hc, h]
    | some ans =>
      have hval : validateTask t (some ans)
          = (if ¬ truthyInt ans.relatedness
             then (⟨false, msgPairRate⟩ : VResult)
             else if 4 ≤ ans.relatedness.getD 0 ∧ jsTrim ans.common_theme = ""
             then ⟨false, msgPairTheme⟩ else ⟨true, ""⟩) := by
        simp [validateTask, hc, h]
      rw [hval]
      by_cases htr : truthyInt ans.relatedness = true
      · rw [if_neg (by simp [htr])]
        have htrr := (truthyInt_eq_true_iff ans.relatedness).mp htr
        by_cases hcond : 4 ≤ ans.relatedness.getD 0
            ∧ jsTrim ans.common_theme = ""
        · rw [if_pos hcond]
          constructor
          · intro hbad; simp at hbad
          · rintro ⟨ans2, heq, _, _, himp⟩
            cases heq
            exact absurd hcond.2 (himp hcond.1)
        · rw [if_neg hcond]
          exact ⟨fun _ => ⟨ans, rfl, htrr.1, htrr.2,
              fun h4 htm => hcond ⟨h4, htm⟩⟩,
            fun _ => rfl⟩
      · have hfalse : truthyInt ans.relatedness = false := by
          revert htr; cases truthyInt ans.relatedness <;> simp
        rw [if_pos (by simp [hfalse])]
        constructor
        · intro hbad; simp at hbad
        · rintro ⟨ans2, heq, hn, hz, _⟩
          cases heq
          have hcontra := (truthyInt_eq_true_iff ans.relatedness).mpr ⟨hn, hz⟩
          rw [hfalse] at hcontra
          cases hcontra
  · rintro rfl; simp [validateTask, hc, h]
  · rintro ans rfl hfalse
    simp [validateTask, hc, h, hfalse]
  · rintro ans rfl htrue h4 hth
    simp [validateTask, hc, h, htrue, h4, hth]

/-- Witness for C2 (amended): a mid-scale rating needs no theme, and a
high rating with a blank theme is rejected with the theme message. -/
theorem validateTask_pair_spec_witness :
    (validateTask { type := "pair" }
        (some { relatedness := some 2 })).ok = true
    ∧ validateTask { type := "pair" }
        (some { relatedness := some 4, common_theme := "  " })
      = ⟨false, msgPairTheme⟩ :=
  ⟨(validateTask_pair_spec { type := "pair" } rfl
      (some { relatedness := some 2 })).1.mpr
      ⟨{ relatedness := some 2 }, rfl, by decide, by decide, by decide⟩,
   (validateTask_pair_spec { type := "pair" } rfl
      (some { relatedness := some 4, common_theme := "  " })).2.2.2
      { relatedness := some 4, common_theme := "  " } rfl
      (by decide) (by decide) (by decide)⟩

/-! ### C3 — cluster-task validation -/

lemma checkItems_ok_iff (ans : Answer) (its : List Item) :
    (checkItems ans its).ok = true ↔
      ∀ it ∈ its, ∃ ia, lookupA ans.items it.doc_id = some ia
        ∧ ia.coherence ≠ none ∧ ia.coherence ≠ some 0 := by
  induction its with
  | nil => simp [checkItems]
  | cons it rest ih =>
    cases hl : lookupA ans.items it.doc_id with
    | none => simp [checkItems, hl]
    | some ia =>
      by_cases hcoh : truthyInt ia.coherence
      · have hc2 := (truthyInt_eq_true_iff ia.coherence).mp hcoh
        simp [checkItems, hl, hcoh, ih, hc2.1, hc2.2]
      · have hc2 : ¬ (ia.coherence ≠ none ∧ ia.coherence ≠ some 0) := by
          rw [← truthyInt_eq_true_iff]; exact hcoh
        simp only [checkItems, hl, hcoh, ite_false, if_neg hcoh]
        constructor
        · intro hbad; simp at hbad
        · intro hall
          obtain ⟨ia2, hia2, hn, hz⟩ := hall it (List.mem_cons_self it rest)
          rw [hl] at hia2
          cases hia2
          exact absurd ⟨hn, hz⟩ hc2

lemma checkItems_coherence_congr (its : List Item) (a1 a2 : Answer)
    (h : ∀ d, Option.map ItemAnswer.coherence (lookupA a1.items d)
        = Option.map ItemAnswer.coherence (lookupA a2.items d)) :
    checkItems a1 its = checkItems a2 its := by
  induction its with
  | nil => rfl
  | cons it rest ih =>
    have hd := h it.doc_id
    cases h1 : lookupA a1.items it.doc_id with
    | none =>
      cases h2 : lookupA a2.items it.doc_id with
      | none => simp [checkItems, h1, h2]
      | some ia2 => rw [h1, h2] at hd; simp at hd
    | some ia1 =>
      cases h2 : lookupA a2.items it.doc_id with
      | none => rw [h1, h2] at hd; simp at hd
      | some ia2 =>
        rw [h1, h2] at hd
        simp at hd
        simp [checkItems, h1, h2, hd, ih]

/-- C3 counterexample: the cluster branch of `validateTask` performs no
range check on `coherence`.  An item rated 7 (not a rating in 1..5) is
accepted with `ok=true`, where the claim demands `ok=false`. -/
theorem validateTask_cluster_range_unchecked :
    validateTask { type := "cluster", items := [{ doc_id := "d" }] }
        (some { items := [("d", { coherence := some 7 })] }) = ⟨true, ""⟩
    ∧ ¬ ((1 : Int) ≤ 7 ∧ (7 : Int) ≤ 5) := by
  decide

/-- C3 (amended): for every cluster task, `validateTask` succeeds exactly
when the answer is present and records, for every item of the task, a
JS-truthy `coherence` (non-null and nonzero — membership in 1..5 is not
checked); an absent answer fails with the cluster message, and the result
depends only on the per-item coherence values: `misplaced` flags, item
notes, `cluster_label` and `cluster_note` never affect it. -/
theorem validateTask_cluster_spec (t : Task) (h : t.type = "cluster")
    (a : Option Answer) :
    ((validateTask t a).ok = true ↔
      ∃ ans, a = some ans ∧ ∀ it ∈ t.items, ∃ ia,
        lookupA ans.items it.doc_id = some ia
          ∧ ia.coherence ≠ none ∧ ia.coherence ≠ some 0)
    ∧ (a = none → validateTask t a = ⟨false, msgClusterMissing⟩)
    ∧ (∀ a1 a2 : Answer,
        (∀ d, Option.map ItemAnswer.coherence (lookupA a1.items d)
            = Option.map ItemAnswer.coherence (lookupA a2.items d)) →
        validateTask t (some a1) = validateTask t (some a2)) := by
  refine ⟨?_, ?_, ?_⟩
  · cases a with
    | none => simp [validateTask, h]
    | some ans => simp [validateTask, h, checkItems_ok_iff]
  · rintro rfl; simp [validateTask, h]
  · intro a1 a2 hcong
    simp [validateTask, h, checkItems_coherence_congr t.items a1 a2 hcong]

/-- A two-item cluster task and two answers differing only in misplaced
flags, notes and labels, used to witness C3. -/
def clusterTaskW : Task :=
  { type := "cluster", task_uid := some "c1",
    items := [{ doc_id := "d1" }, { doc_id := "d2" }] }
def clusterAnsW1 : Answer :=
  { items := [("d1", { coherence := some 5 }),
      ("d2", { coherence := some 3, misplaced := true, note := "n" })] }
def clusterAnsW2 : Answer :=
  { items := [("d1", { coherence := some 5, misplaced := true }),
      ("d2", { coherence := some 3 })], cluster_label := "L",
    cluster_note := "N" }

/-- Witness for C3 (amended): all items rated means `ok=true`, and the
result is insensitive to misplaced flags, notes and labels. -/
theorem validateTask_cluster_spec_witness :
    (validateTask clusterTaskW (some clusterAnsW1)).ok = true
    ∧ validateTask clusterTaskW (some clusterAnsW1)
        = validateTask clusterTaskW (some clusterAnsW2) :=
  ⟨(validateTask_cluster_spec clusterTaskW rfl (some clusterAnsW1)).1.mpr
      ⟨clusterAnsW1, rfl, by decide⟩,
   (validateTask_cluster_spec clusterTaskW rfl
      (some clusterAnsW1)).2.2 clusterAnsW1 clusterAnsW2 (by
        intro d
        by_cases h1 : ("d1" : String) = d
        · simp [clusterAnsW1, clusterAnsW2, lookupA, h1]
        · by_cases h2 : ("d2" : String) = d
          · simp [clusterAnsW1, clusterAnsW2, lookupA, h1, h2]
          · simp [clusterAnsW1, clusterAnsW2, lookupA, h1, h2])⟩

/-! ### C4 — transport failure leaves the session retryable -/

/-- C4: for an unsubmitted session whose tasks all validate, any failing
transport outcome (thrown network error or non-success HTTP status)
leaves `submitted = false`, re-enables the submit control, surfaces a
non-empty error message, and changes nothing else in the session state
during the failure path: `answers`, `taskIndex`, `startedAt`, `started`,
`taskTimeMs` and `clientSessionId` are those of the entry state (the
`finishedAt` stamp and the fresh `lastSubmissionUuid` are written before
any network activity on every attempt, not by the failure path). -/
theorem submit_transport_failure_retryable (st : Session)
    (tasks : List Task) (uuid nowIso : String)
    (transport : TransportResult) (enabled0 : Bool)
    (hsub : st.submitted = false) (hval : allTasksValid tasks st = true)
    (hfail : transport ≠ TransportResult.success) :
    (submit st tasks uuid nowIso true transport enabled0).state.submitted
        = false
    ∧ (submit st tasks uuid nowIso true transport enabled0).submitEnabled
        = true
    ∧ (∃ m, (submit st tasks uuid nowIso true transport enabled0).statusMsg
          = some m ∧ m ≠ "")
    ∧ (submit st tasks uuid nowIso true transport enabled0).state.answers
        = st.answers
    ∧ (submit st tasks uuid nowIso true transport enabled0).state.taskIndex
        = st.taskIndex
    ∧ (submit st tasks uuid nowIso true transport enabled0).state.startedAt
        = st.startedAt
    ∧ (submit st tasks uuid nowIso true transport enabled0).state.started
        = st.started
    ∧ (submit st tasks uuid nowIso true transport enabled0).state.taskTimeMs
        = st.taskTimeMs
    ∧ (submit st tasks uuid nowIso true
        transport enabled0).state.clientSessionId = st.clientSessionId := by
  cases transport with
  | success => exact absurd rfl hfail
  | httpError status body =>
    refine ⟨?_, ?_, ⟨mkHttpErrorMsg status body, ?_,
      mkHttpErrorMsg_ne_empty status body⟩, ?_, ?_, ?_, ?_, ?_, ?_⟩ <;>
      simp [submit, hsub, hval]
  | networkError =>
    refine ⟨?_, ?_, ⟨msgNetError, ?_, by decide⟩, ?_, ?_, ?_, ?_, ?_, ?_⟩ <;>
      simp [submit, hsub, hval]

/-- Witness for C4 at a concrete session and a thrown network error. -/
theorem submit_transport_failure_retryable_witness :
    (submit {} [] "u1" "2026-01-01" true
        TransportResult.networkError true).state.submitted = false
    ∧ (submit {} [] "u1" "2026-01-01" true
        TransportResult.networkError true).submitEnabled = true :=
  ⟨(submit_transport_failure_retryable {} [] "u1" "2026-01-01"
      TransportResult.networkError true rfl rfl (by decide)).1,
   (submit_transport_failure_retryable {} [] "u1" "2026-01-01"
      TransportResult.networkError true rfl rfl (by decide)).2.1⟩

/-! ### C6 — navigation stays clamped and gated -/

/-- C6: with the current task in range, back navigation is ungated and
clamps `taskIndex - 1` into `[0, taskCount]`; next navigation advances
with the same clamping exactly when the validator accepts the current
task's answer, and otherwise leaves the session unchanged and reports the
validator's message. -/
theorem navigation_clamped_and_gated (tasks : List Task) (st : Session)
    (task : Task) (hget : tasks[st.taskIndex.toNat]? = some task) :
    ((backOp st tasks.length).taskIndex
        = clamp (st.taskIndex - 1) 0 (tasks.length : Int)
      ∧ 0 ≤ (backOp st tasks.length).taskIndex
      ∧ (backOp st tasks.length).taskIndex ≤ (tasks.length : Int))
    ∧ ((validateTask task (lookupAnswer st task)).ok = true →
        ((nextOp tasks st).1.taskIndex
            = clamp (st.taskIndex + 1) 0 (tasks.length : Int)
          ∧ 0 ≤ (nextOp tasks st).1.taskIndex
          ∧ (nextOp tasks st).1.taskIndex ≤ (tasks.length : Int)
          ∧ (nextOp tasks st).2 = none))
    ∧ ((validateTask task (lookupAnswer st task)).ok = false →
        ((nextOp tasks st).1 = st
          ∧ (nextOp tasks st).2
              = some (validateTask task (lookupAnswer st task)).msg)) := by
  refine ⟨⟨rfl, ?_, ?_⟩, fun hok => ⟨?_, ?_, ?_, ?_⟩, fun hko => ⟨?_, ?_⟩⟩
  · simp only [backOp, clamp]
    omega
  · simp only [backOp, clamp]
    omega
  · simp [nextOp, hget, hok]
  · simp [nextOp, hget, hok, clamp]
  · simp [nextOp, hget, hok, clamp]
  · simp [nextOp, hget, hok]
  · simp [nextOp, hget, hko]
  · simp [nextOp, hget, hko]

/-- Witness for C6: at the first of two tasks, an unanswerable pair task
blocks next with the rating message, while back stays clamped at 0; the
unknown-type second task would let next advance. -/
theorem navigation_clamped_and_gated_witness :
    (backOp {} 2).taskIndex = clamp (-1) 0 2
    ∧ (nextOp [{ type := "pair", task_uid := some "p" },
        { type := "other" }] {}).1 = {}
    ∧ (nextOp [{ type := "pair", task_uid := some "p" },
        { type := "other" }] {}).2 = some msgPairRate := by
  have h := navigation_clamped_and_gated
    [{ type := "pair", task_uid := some "p" }, { type := "other" }] {}
    { type := "pair", task_uid := some "p" } rfl
  have h2 := h.2.2 (by decide)
  exact ⟨h.1.1, h2.1, h2.2⟩

/-! ### C8 — per-task timing accumulation -/

lemma updateTiming_step (st : Session) (nxt : Option String) (now : Int)
    (pk : String) (pe : Int) (hk : st.lastTaskKey = some pk)
    (he : st.lastTaskEnterAt = some pe) (hpk : pk ≠ "") (hpe : pe ≠ 0) :
    (updateTimingOnTaskSwitch st nxt now).taskTimeMs
        = setA st.taskTimeMs pk (getMs st.taskTimeMs pk + max 0 (now - pe))
    ∧ (updateTimingOnTaskSwitch st nxt now).lastTaskKey = nxt
    ∧ (updateTimingOnTaskSwitch st nxt now).lastTaskEnterAt = some now := by
  refine ⟨?_, ?_, ?_⟩ <;>
    simp [updateTimingOnTaskSwitch, hk, he, hpk, hpe, getMs]

/-- C8: on a task switch at clock reading `t1`, the elapsed time since
the previous task became current, clamped to non-negative, is added to
the previous task's running total in `taskTimeMs` and no other entry
changes; moreover visiting task `a`, then `b`, then `a` again accumulates
`a`'s time across both visits instead of overwriting it. -/
theorem timing_accumulates (st : Session) (a b : String) (c : Option String)
    (t0 t1 t2 t3 : Int) (ha : a ≠ "") (hb : b ≠ "") (hba : b ≠ a)
    (hk : st.lastTaskKey = some a) (he : st.lastTaskEnterAt = some t0)
    (ht0 : t0 ≠ 0) (ht1 : t1 ≠ 0) (ht2 : t2 ≠ 0) :
    getMs (updateTimingOnTaskSwitch st (some b) t1).taskTimeMs a
        = getMs st.taskTimeMs a + max 0 (t1 - t0)
    ∧ (∀ k2, k2 ≠ a →
        getMs (updateTimingOnTaskSwitch st (some b) t1).taskTimeMs k2
          = getMs st.taskTimeMs k2)
    ∧ (updateTimingOnTaskSwitch st (some b) t1).lastTaskKey = some b
    ∧ (updateTimingOnTaskSwitch st (some b) t1).lastTaskEnterAt = some t1
    ∧ getMs (updateTimingOnTaskSwitch (updateTimingOnTaskSwitch
          (updateTimingOnTaskSwitch st (some b) t1) (some a) t2)
          c t3).taskTimeMs a
        = getMs st.taskTimeMs a + max 0 (t1 - t0) + max 0 (t3 - t2) := by
  obtain ⟨s1m, s1k, s1e⟩ := updateTiming_step st (some b) t1 a t0 hk he ha ht0
  have g1 : getMs (updateTimingOnTaskSwitch st (some b) t1).taskTimeMs a
      = getMs st.taskTimeMs a + max 0 (t1 - t0) := by
    rw [s1m, getMs_setA_self]
  refine ⟨g1, fun k2 hk2 => by rw [s1m, getMs_setA_ne _ _ _ _ hk2],
    s1k, s1e, ?_⟩
  obtain ⟨s2m, s2k, s2e⟩ := updateTiming_step
    (updateTimingOnTaskSwitch st (some b) t1) (some a) t2 b t1 s1k s1e hb ht1
  have g2 : getMs (updateTimingOnTaskSwitch
      (updateTimingOnTaskSwitch st (some b) t1) (some a) t2).taskTimeMs a
      = getMs st.taskTimeMs a + max 0 (t1 - t0) := by
    rw [s2m, getMs_setA_ne _ _ _ _ (Ne.symm hba), g1]
  obtain ⟨s3m, _, _⟩ := updateTiming_step
    (updateTimingOnTaskSwitch (updateTimingOnTaskSwitch st (some b) t1)
      (some a) t2) c t3 a t2 s2k s2e ha ht2
  rw [s3m, getMs_setA_self, g2]

/-- A session sitting on task `"A"` since clock reading 10, used to
witness C8. -/
def stTimingW : Session :=
  { lastTaskKey := some "A", lastTaskEnterAt := some 10 }

/-- Witness for C8: leaving `"A"` at 25, entering `"B"`, returning to
`"A"` at 40 and leaving again at 100 accumulates 15 + 60 = 75 ms for
`"A"`. -/
theorem timing_accumulates_witness :
    getMs (updateTimingOnTaskSwitch (updateTimingOnTaskSwitch
        (updateTimingOnTaskSwitch stTimingW (some "B") 25) (some "A") 40)
        (some "C") 100).taskTimeMs "A" = 75 := by
  have h := (timing_accumulates stTimingW "A" "B" (some "C") 10 25 40 100
    (by decide) (by decide) (by decide) rfl rfl (by decide) (by decide)
    (by decide)).2.2.2.2
  rw [h]
  decide

/-! ### C7 — cluster-batch "part k of K" via a stable sort -/

instance : IsTotal Task (fun a b => bIdx a ≤ bIdx b) :=
  ⟨fun a b => Int.le_total (bIdx a) (bIdx b)⟩

instance : IsTrans Task (fun a b => bIdx a ≤ bIdx b) :=
  ⟨fun _ _ _ h1 h2 => le_trans h1 h2⟩

lemma orderedInsert_filter_batch (t : Task) (l : List Task) (c : Int) :
    (List.orderedInsert (fun a b => bIdx a ≤ bIdx b) t l).filter
        (fun u => decide (bIdx u = c))
      = if bIdx t = c
        then t :: l.filter (fun u => decide (bIdx u = c))
        else l.filter (fun u => decide (bIdx u = c)) := by
  induction l with
  | nil =>
    by_cases htc : bIdx t = c <;> simp [List.orderedInsert, htc]
  | cons u rest ih =>
    simp only [List.orderedInsert]
    by_cases hle : bIdx t ≤ bIdx u
    · rw [if_pos hle]
      by_cases htc : bIdx t = c <;> simp [List.filter_cons, htc]
    · rw [if_neg hle]
      have hut : bIdx u < bIdx t := lt_of_not_le hle
      by_cases htc : bIdx t = c
      · have huc : ¬ (bIdx u = c) := by omega
        simp [List.filter_cons, huc, ih, htc]
      · simp [List.filter_cons, ih, htc]

lemma sortByBatch_filter (l : List Task) (c : Int) :
    (sortByBatch l).filter (fun u => decide (bIdx u = c))
      = l.filter (fun u => decide (bIdx u = c)) := by
  induction l with
  | nil => rfl
  | cons t rest ih =>
    have hdef : sortByBatch (t :: rest)
        = List.orderedInsert (fun a b => bIdx a ≤ bIdx b) t
            (sortByBatch rest) := rfl
    rw [hdef, orderedInsert_filter_batch]
    by_cases htc : bIdx t = c <;> simp [htc, List.filter_cons, ih]

/-- The three cluster tasks of the spec scenario: one shared
`(clustering_id="A", cluster_id="0")` group with `batch_index` 0, 1, 2
stored in order 2, 0, 1. -/
def taskA0b0 : Task :=
  { type := "cluster", task_uid := some "t0", clustering_id := "A",
    cluster_id := "0", batch_index := some 0 }
def taskA0b1 : Task :=
  { type := "cluster", task_uid := some "t1", clustering_id := "A",
    cluster_id := "0", batch_index := some 1 }
def taskA0b2 : Task :=
  { type := "cluster", task_uid := some "t2", clustering_id := "A",
    cluster_id := "0", batch_index := some 2 }

/-- C7: for a cluster task whose `(clustering_id, cluster_id)` group has
at least two members, `computeClusterBatchInfo` reports `K` as the size
of the group and `k` as the successor of the task's position in the
stably sorted group (a permutation of the group that is sorted by
`batch_index ?? 0` and preserves the storage order within every equal
key, i.e. the unique stable sort); in particular the scenario with
`batch_index` 0, 1, 2 stored in order 2, 0, 1 reports part 2 of 3 for
the task with `batch_index = 1`. -/
theorem computeClusterBatchInfo_spec (tasks : List Task) (task : Task)
    (h : task.type = "cluster") (h2 : 2 ≤ (sameGroup task tasks).length) :
    (∃ sorted : List Task,
      sorted.Perm (sameGroup task tasks)
      ∧ sorted.Sorted (fun x y => bIdx x ≤ bIdx y)
      ∧ (∀ c : Int, sorted.filter (fun u => decide (bIdx u = c))
          = (sameGroup task tasks).filter (fun u => decide (bIdx u = c)))
      ∧ computeClusterBatchInfo tasks task
          = some ⟨(sorted.findIdx? (fun u =>
                decide (getAnswerKey u = getAnswerKey task))).map
                  (fun i => i + 1),
              (sameGroup task tasks).length⟩)
    ∧ computeClusterBatchInfo [taskA0b2, taskA0b0, taskA0b1] taskA0b1
        = some { k := some 2, K := 3 } := by
  refine ⟨⟨sortByBatch (sameGroup task tasks),
    List.perm_insertionSort _ _, List.sorted_insertionSort _ _,
    fun c => sortByBatch_filter _ c, ?_⟩, by decide⟩
  have hlen : (sortByBatch (sameGroup task tasks)).length
      = (sameGroup task tasks).length :=
    (List.perm_insertionSort _ _).length_eq
  have hne : ¬ (task.type ≠ "cluster") := by simp [h]
  have hgt : ¬ ((sameGroup task tasks).length ≤ 1) := by omega
  simp only [computeClusterBatchInfo, hne, hgt, if_false, ite_false]
  cases hidx : (sortByBatch (sameGroup task tasks)).findIdx?
      (fun u => decide (getAnswerKey u = getAnswerKey task)) with
  | none => simp [hidx, hlen]
  | some i => simp [hidx, hlen]

/-- Witness for C7: the scenario group, applied through the theorem. -/
theorem computeClusterBatchInfo_spec_witness :
    computeClusterBatchInfo [taskA0b2, taskA0b0, taskA0b1] taskA0b1
      = some { k := some 2, K := 3 } :=
  (computeClusterBatchInfo_spec [taskA0b2, taskA0b0, taskA0b1] taskA0b1
    rfl (by decide)).2

end Papadiamantis
